import Mathlib

/-!
Dashboard charts: `backend/static/admin_panel/js/dashboard_charts.js`.

A shallow embedding of the page-ready handler that draws the "games" and
"players" line charts of the admin dashboard, and the theorems that settle the
specification's statements about it.

The script is one `document.addEventListener` call whose listener

* reads four properties of `window`, each defaulted with `|| []`;
* looks two elements up by id and asks each for its `2d` context;
* calls `new Chart(ctx, config)` twice with two object literals.

The charting library is an external collaborator: it is a parameter of the
model (`ChartLib`), given by what the global `Chart` resolves to and, when that
is a constructor, by whether a call raises.  The host page (the `window`
bindings and the document) is the input.
-/

set_option autoImplicit false

namespace DashboardCharts

/-! ## JavaScript values -/

/-- Number values, as far as the script can tell them apart.  A finite number is
kept as a decimal `mantissa / 10 ^ places` (the literal `0.3` is `dec 3 1`);
the script never computes with numbers, it only tests them for truthiness and
stores them. -/
inductive JSNum where
  | nan
  | negZero
  | infinity (negative : Bool)
  | dec (mantissa : Int) (places : Nat)
  deriving DecidableEq, Repr

/-- ECMAScript language values.  Arrays and plain objects are kept by content. -/
inductive JSVal where
  | undefined
  | null
  | bool (b : Bool)
  | number (n : JSNum)
  | bigint (i : Int)
  | string (s : String)
  | symbol (description : String)
  | func (name : String)
  | array (items : List JSVal)
  | object (props : List (String × JSVal))
  deriving Repr

/-- Holds for `NaN`, `+0` and `-0`: the numbers that `ToBoolean` sends to false. -/
def JSNum.isFalsy : JSNum → Bool
  | .nan => true
  | .negZero => true
  | .infinity _ => false
  | .dec m _ => m == 0

/-- ECMAScript `ToBoolean`. -/
def toBoolean : JSVal → Bool
  | .undefined => false
  | .null => false
  | .bool b => b
  | .number n => !n.isFalsy
  | .bigint i => i != 0
  | .string s => s.length != 0
  | .symbol _ => true
  | .func _ => true
  | .array _ => true
  | .object _ => true

/-- The binary operator `a || b`: `a` when `a` is truthy, otherwise `b`. -/
def jsOr (a b : JSVal) : JSVal :=
  if toBoolean a then a else b

/-- The array literal `[]`. -/
def emptyArray : JSVal := .array []

/-- The expression `v || []` of lines 3, 4, 28 and 29. -/
def orEmpty (v : JSVal) : JSVal := jsOr v emptyArray

/-- The `length` of a value that is an array; `none` for anything else. -/
def arrayLength : JSVal → Option Nat
  | .array items => some items.length
  | _ => none

/-! ## The host page -/

/-- The global object: its own properties, by name. -/
structure Window where
  props : List (String × JSVal)
  deriving Repr

/-- The binding of a global, `none` when the page never set it. -/
def Window.binding (w : Window) (name : String) : Option JSVal :=
  (w.props.find? (fun p => p.1 == name)).map (fun p => p.2)

/-- Property read `window.name`: an absent property reads as `undefined`. -/
def Window.get (w : Window) (name : String) : JSVal :=
  (w.binding name).getD .undefined

/-- A `CanvasRenderingContext2D`, known by a handle. -/
structure Context2D where
  handle : Nat
  deriving DecidableEq, Repr

/-- What an element of the document is: a `canvas` (with the value its
`getContext` gives for `2d`, `none` standing for `null`), or any other tag,
which has no `getContext` method. -/
inductive ElementKind where
  | canvas (context2d : Option Context2D)
  | other (tag : String)
  deriving DecidableEq, Repr

/-- An element of the document. -/
structure Element where
  id : String
  kind : ElementKind
  deriving DecidableEq, Repr

/-- The document: its elements in document order. -/
structure Document where
  elements : List Element
  deriving Repr

/-- The call `document.getElementById(id)`: the first element with that id, `none` for `null`. -/
def Document.getElementById (d : Document) (id : String) : Option Element :=
  d.elements.find? (fun e => e.id == id)

/-- An error raised while the handler runs: a `TypeError` or `ReferenceError` of
the handler's own code (a property access, a call, an identifier it evaluates),
or whatever the chart constructor raised. -/
inductive JSError where
  | typeError (message : String)
  | referenceError (message : String)
  | raisedByChart (message : String)
  deriving DecidableEq, Repr

/-- The call `canvas.getContext(contextId)` on a canvas element. -/
def getContext (context2d : Option Context2D) (contextId : String) : Option Context2D :=
  if contextId == "2d" then context2d else none

/-- The expression `document.getElementById(id).getContext(2d)` of lines 5 and 30.
A `null` element, and an element without a `getContext` method, raise `TypeError`. -/
def elementContext (d : Document) (id : String) : Except JSError (Option Context2D) :=
  match d.getElementById id with
  | none => .error (.typeError "Cannot read properties of null (reading getContext)")
  | some e =>
    match e.kind with
    | .other _ => .error (.typeError "getContext is not a function")
    | .canvas c => .ok (getContext c "2d")

/-- The document has a canvas element under this id (the first element of that id is a canvas). -/
def Document.hasCanvas (d : Document) (id : String) : Bool :=
  match d.getElementById id with
  | some e => match e.kind with
    | .canvas _ => true
    | .other _ => false
  | none => false

/-! ## Chart configurations (the object literals of lines 6-25 and 31-50) -/

/-- One entry of `data.datasets`. -/
structure Dataset where
  label : String
  data : JSVal
  borderColor : String
  backgroundColor : String
  fill : Bool
  tension : JSNum
  deriving Repr

/-- The `data` object of a configuration. -/
structure ChartData where
  labels : JSVal
  datasets : List Dataset
  deriving Repr

/-- The `legend` object. -/
structure Legend where
  display : Bool
  deriving DecidableEq, Repr

/-- The `plugins` object. -/
structure Plugins where
  legend : Legend
  deriving DecidableEq, Repr

/-- The `options` object. -/
structure Options where
  responsive : Bool
  plugins : Plugins
  deriving DecidableEq, Repr

/-- The second argument of `new Chart`. -/
structure ChartConfig where
  type : String
  data : ChartData
  options : Options
  deriving Repr

/-- The configuration literal of the games chart, lines 6-25. -/
def gamesConfig (gamesLabels gamesData : JSVal) : ChartConfig :=
  { type := "line"
    data :=
      { labels := gamesLabels
        datasets :=
          [{ label := "Games"
             data := gamesData
             borderColor := "#0073aa"
             backgroundColor := "rgba(0,115,170,0.1)"
             fill := true
             tension := .dec 3 1 }] }
    options :=
      { responsive := true
        plugins := { legend := { display := false } } } }

/-- The configuration literal of the players chart, lines 31-50. -/
def playersConfig (playersLabels playersData : JSVal) : ChartConfig :=
  { type := "line"
    data :=
      { labels := playersLabels
        datasets :=
          [{ label := "Players"
             data := playersData
             borderColor := "#ff9800"
             backgroundColor := "rgba(255,152,0,0.1)"
             fill := true
             tension := .dec 3 1 }] }
    options :=
      { responsive := true
        plugins := { legend := { display := false } } } }

/-- The points a line chart plots: the entries of the first dataset's `data` array. -/
def ChartConfig.pointCount (cfg : ChartConfig) : Nat :=
  match cfg.data.datasets with
  | [] => 0
  | ds :: _ => (arrayLength ds.data).getD 0

/-- The x-axis ticks of a configuration: the entries of `data.labels`. -/
def ChartConfig.labelCount (cfg : ChartConfig) : Nat :=
  (arrayLength cfg.data.labels).getD 0

/-- The same configuration with `data.labels` and every dataset's `data` blanked:
what is left is the styling. -/
def ChartConfig.styling (cfg : ChartConfig) : ChartConfig :=
  { cfg with
    data :=
      { labels := .undefined
        datasets := cfg.data.datasets.map (fun ds => { ds with data := .undefined }) } }

/-! ## The charting library and the handler -/

/-- One evaluation of `new Chart(ctx, config)`. -/
structure ChartCall where
  ctx : Option Context2D
  config : ChartConfig
  deriving Repr

/-- What the free identifier `Chart` of lines 6 and 31 resolves to: nothing (the
library was not loaded), a value that is not a constructor, or the library's
constructor.  The constructor is given by the error it raises on a call, seeing
the charts this run has already constructed (`none` when it constructs the chart). -/
inductive ChartGlobal where
  | unresolvable
  | notConstructor (value : JSVal)
  | constructor (body : List ChartCall → ChartCall → Option JSError)

/-- The external charting library, as the page presents it to the script: the
binding of the global `Chart`. -/
structure ChartLib where
  Chart : ChartGlobal

/-- How one evaluation of `new Chart(ctx, config)` ends: the handler's own code
raises before any constructor is called, or the constructor is called and
raises, or it is called and returns the chart. -/
inductive NewOutcome where
  | notCalled (e : JSError)
  | raised (e : JSError)
  | built

/-- The expression `new Chart(ctx, config)` of lines 6 and 31.  The identifier is
evaluated first (`ReferenceError` when it does not resolve); the arguments
cannot raise; a value that is not a constructor gives `TypeError`; otherwise
the constructor runs. -/
def newChart (lib : ChartLib) (earlier : List ChartCall) (call : ChartCall) : NewOutcome :=
  match lib.Chart with
  | .unresolvable => .notCalled (.referenceError "Chart is not defined")
  | .notConstructor _ => .notCalled (.typeError "Chart is not a constructor")
  | .constructor body =>
    match body earlier call with
    | some e => .raised e
    | none => .built

/-- The error that `new Chart(ctx, config)` ends in, whoever raised it; `none`
when the chart is constructed. -/
def ChartLib.construct (lib : ChartLib) (earlier : List ChartCall) (call : ChartCall) :
    Option JSError :=
  match newChart lib earlier call with
  | .notCalled e => some e
  | .raised e => some e
  | .built => none

/-- What one run of the handler did. -/
structure Run where
  /-- The ids passed to `getElementById`, in order. -/
  lookups : List String
  /-- The constructor calls reached, in order. -/
  calls : List ChartCall
  /-- The charts constructed (calls that returned), in order. -/
  charts : List ChartCall
  /-- The error that ended the run, if one did.  Nothing in the handler catches. -/
  error : Option JSError

/-- Line 3. -/
def gamesLabels (w : Window) : JSVal := orEmpty (w.get "gamesChartLabels")

/-- Line 4. -/
def gamesData (w : Window) : JSVal := orEmpty (w.get "gamesChartData")

/-- Line 28. -/
def playersLabels (w : Window) : JSVal := orEmpty (w.get "playersChartLabels")

/-- Line 29. -/
def playersData (w : Window) : JSVal := orEmpty (w.get "playersChartData")

/-- The listener of lines 1-51, statement by statement.  A raised error ends the
run at that statement; there is no `try`. -/
def handler (lib : ChartLib) (w : Window) (d : Document) : Run :=
  let labelsG := gamesLabels w
  let dataG := gamesData w
  match elementContext d "gamesChart" with
  | .error e => { lookups := ["gamesChart"], calls := [], charts := [], error := some e }
  | .ok ctx =>
    let games : ChartCall := { ctx := ctx, config := gamesConfig labelsG dataG }
    match newChart lib [] games with
    | .notCalled e => { lookups := ["gamesChart"], calls := [], charts := [], error := some e }
    | .raised e => { lookups := ["gamesChart"], calls := [games], charts := [], error := some e }
    | .built =>
      let labelsP := playersLabels w
      let dataP := playersData w
      match elementContext d "playersChart" with
      | .error e =>
        { lookups := ["gamesChart", "playersChart"], calls := [games], charts := [games],
          error := some e }
      | .ok ctxPlayers =>
        let players : ChartCall := { ctx := ctxPlayers, config := playersConfig labelsP dataP }
        match newChart lib [games] players with
        | .notCalled e =>
          { lookups := ["gamesChart", "playersChart"], calls := [games],
            charts := [games], error := some e }
        | .raised e =>
          { lookups := ["gamesChart", "playersChart"], calls := [games, players],
            charts := [games], error := some e }
        | .built =>
          { lookups := ["gamesChart", "playersChart"], calls := [games, players],
            charts := [games, players], error := none }

/-- A library whose constructor never raises. -/
def quietLib : ChartLib := { Chart := .constructor (fun _ _ => none) }

/-- No evaluation of `new Chart(ctx, config)` raises, whatever it is given:
`Chart` is bound to a constructor, and the constructor never raises. -/
def ChartLib.NeverRaises (lib : ChartLib) : Prop :=
  ∀ earlier call, lib.construct earlier call = none

/-- The 2d context of the canvas under this id, `none` when there is none (or it is `null`). -/
def Document.context2d (d : Document) (id : String) : Option Context2D :=
  match d.getElementById id with
  | some e => match e.kind with
    | .canvas c => c
    | .other _ => none
  | none => none

/-! ## The page: script evaluation and event delivery -/

/-- A listener registered on the document. -/
abbrev Listener := ChartLib → Window → Document → Run

/-- The state of the page the script is loaded into: the listeners registered on
the document, and everything listeners have done so far. -/
structure Page where
  listeners : List (String × Listener)
  lookups : List String
  calls : List ChartCall
  charts : List ChartCall
  errors : List JSError

/-- A page on which no script has run. -/
def Page.fresh : Page :=
  { listeners := [], lookups := [], calls := [], charts := [], errors := [] }

/-- Evaluating the script: its one top-level statement is the
`document.addEventListener` call of line 1. -/
def evalScript (p : Page) : Page :=
  { p with listeners := p.listeners ++ [("DOMContentLoaded", handler)] }

/-- The page after one listener has run. -/
def Page.record (p : Page) (r : Run) : Page :=
  { p with
    lookups := p.lookups ++ r.lookups
    calls := p.calls ++ r.calls
    charts := p.charts ++ r.charts
    errors := p.errors ++ r.error.toList }

/-- One delivery of an event to the document: each listener registered for it
runs once, synchronously, in registration order. -/
def dispatch (lib : ChartLib) (w : Window) (d : Document) (event : String) (p : Page) : Page :=
  (p.listeners.filter (fun l => l.1 == event)).foldl (fun acc l => acc.record (l.2 lib w d)) p

/-- Delivering the page-ready event `n` times. -/
def deliver (lib : ChartLib) (w : Window) (d : Document) : Nat → Page → Page
  | 0, p => p
  | n + 1, p => deliver lib w d n (dispatch lib w d "DOMContentLoaded" p)

/-! ## Sample pages -/

/-- A page that sets no chart binding. -/
def bareWindow : Window := { props := [] }

/-- The games bindings of the specification's example scenario. -/
def weekWindow : Window :=
  { props :=
      [("gamesChartLabels", .array [.string "Mon", .string "Tue", .string "Wed"]),
       ("gamesChartData",
        .array [.number (.dec 3 0), .number (.dec 5 0), .number (.dec 2 0)])] }

/-- Labels for the games chart and no data for it. -/
def labelsOnlyWindow : Window :=
  { props := [("gamesChartLabels", .array [.string "Mon"])] }

/-- A document with both canvases. -/
def bothCanvases : Document :=
  { elements :=
      [{ id := "gamesChart", kind := .canvas (some { handle := 1 }) },
       { id := "playersChart", kind := .canvas (some { handle := 2 }) }] }

/-- A document without the games canvas. -/
def playersCanvasOnly : Document :=
  { elements := [{ id := "playersChart", kind := .canvas (some { handle := 2 }) }] }

/-- A document without the players canvas. -/
def gamesCanvasOnly : Document :=
  { elements := [{ id := "gamesChart", kind := .canvas (some { handle := 1 }) }] }

/-- A library whose constructor raises on every call. -/
def raisingLib : ChartLib :=
  { Chart := .constructor (fun _ _ => some (.raisedByChart "invalid data")) }

/-- A page on which the charting library was not loaded: `Chart` does not resolve. -/
def noChartLib : ChartLib := { Chart := .unresolvable }

/-- A page on which `Chart` is bound to `undefined`. -/
def undefinedChartLib : ChartLib := { Chart := .notConstructor .undefined }

/-- A library whose constructor raises on the first chart of a run only. -/
def firstRaisesLib : ChartLib :=
  { Chart := .constructor (fun earlier _ =>
      if earlier.isEmpty then some (.raisedByChart "invalid data") else none) }

/-- The constructor call of line 6, once the games canvas has been found. -/
def gamesCall (w : Window) (d : Document) : ChartCall :=
  { ctx := d.context2d "gamesChart", config := gamesConfig (gamesLabels w) (gamesData w) }

/-- The constructor call of line 31, once the players canvas has been found. -/
def playersCall (w : Window) (d : Document) : ChartCall :=
  { ctx := d.context2d "playersChart", config := playersConfig (playersLabels w) (playersData w) }

/-- Both values are arrays, of one length. -/
def sameLength (a b : JSVal) : Bool :=
  match arrayLength a, arrayLength b with
  | some m, some n => m == n
  | _, _ => false

/-- The Series invariant on a configuration: `data.labels` and the first
dataset's `data` are arrays of equal length. -/
def ChartConfig.seriesOk (cfg : ChartConfig) : Bool :=
  match cfg.data.datasets with
  | [] => false
  | ds :: _ => sameLength cfg.data.labels ds.data

/-! ## Lemmas on the model -/

theorem quietLib_neverRaises : quietLib.NeverRaises := fun _ _ => rfl

theorem elementContext_of_hasCanvas (d : Document) (id : String) (h : d.hasCanvas id = true) :
    elementContext d id = .ok (d.context2d id) := by
  unfold Document.hasCanvas at h
  unfold elementContext Document.context2d
  cases hd : d.getElementById id with
  | none => simp [hd] at h
  | some e =>
    cases hk : e.kind with
    | other t => simp [hd, hk] at h
    | canvas c => simp [hk, getContext]

theorem elementContext_of_not_hasCanvas (d : Document) (id : String)
    (h : d.hasCanvas id = false) :
    ∃ m, elementContext d id = .error (.typeError m) := by
  unfold Document.hasCanvas at h
  unfold elementContext
  cases hd : d.getElementById id with
  | none => exact ⟨_, rfl⟩
  | some e =>
    cases hk : e.kind with
    | other t => exact ⟨"getContext is not a function", by simp [hk]⟩
    | canvas c => simp [hd, hk] at h

theorem handler_games_missing (lib : ChartLib) (w : Window) (d : Document) (e : JSError)
    (h : elementContext d "gamesChart" = .error e) :
    handler lib w d
      = { lookups := ["gamesChart"], calls := [], charts := [], error := some e } := by
  simp only [handler, h]

theorem construct_eq_none (lib : ChartLib) (earlier : List ChartCall) (call : ChartCall) :
    lib.construct earlier call = none ↔ newChart lib earlier call = .built := by
  unfold ChartLib.construct
  cases newChart lib earlier call <;> simp

theorem construct_of_notCalled (lib : ChartLib) (earlier : List ChartCall) (call : ChartCall)
    (e : JSError) (h : newChart lib earlier call = .notCalled e) :
    lib.construct earlier call = some e := by
  simp [ChartLib.construct, h]

theorem construct_of_raised (lib : ChartLib) (earlier : List ChartCall) (call : ChartCall)
    (e : JSError) (h : newChart lib earlier call = .raised e) :
    lib.construct earlier call = some e := by
  simp [ChartLib.construct, h]

theorem handler_games_not_called (lib : ChartLib) (w : Window) (d : Document)
    (ctx : Option Context2D) (e : JSError)
    (h : elementContext d "gamesChart" = .ok ctx)
    (hc : newChart lib [] ⟨ctx, gamesConfig (gamesLabels w) (gamesData w)⟩ = .notCalled e) :
    handler lib w d
      = { lookups := ["gamesChart"], calls := [], charts := [], error := some e } := by
  simp only [handler, h, hc]

theorem handler_games_raises (lib : ChartLib) (w : Window) (d : Document)
    (ctx : Option Context2D) (e : JSError)
    (h : elementContext d "gamesChart" = .ok ctx)
    (hc : newChart lib [] ⟨ctx, gamesConfig (gamesLabels w) (gamesData w)⟩ = .raised e) :
    handler lib w d
      = { lookups := ["gamesChart"]
          calls := [⟨ctx, gamesConfig (gamesLabels w) (gamesData w)⟩]
          charts := []
          error := some e } := by
  simp only [handler, h, hc]

theorem handler_players_missing (lib : ChartLib) (w : Window) (d : Document)
    (ctx : Option Context2D) (e : JSError)
    (h : elementContext d "gamesChart" = .ok ctx)
    (hc : newChart lib [] ⟨ctx, gamesConfig (gamesLabels w) (gamesData w)⟩ = .built)
    (hp : elementContext d "playersChart" = .error e) :
    handler lib w d
      = { lookups := ["gamesChart", "playersChart"]
          calls := [⟨ctx, gamesConfig (gamesLabels w) (gamesData w)⟩]
          charts := [⟨ctx, gamesConfig (gamesLabels w) (gamesData w)⟩]
          error := some e } := by
  simp only [handler, h, hc, hp]

theorem handler_players_not_called (lib : ChartLib) (w : Window) (d : Document)
    (ctx ctxPlayers : Option Context2D) (e : JSError)
    (h : elementContext d "gamesChart" = .ok ctx)
    (hc : newChart lib [] ⟨ctx, gamesConfig (gamesLabels w) (gamesData w)⟩ = .built)
    (hp : elementContext d "playersChart" = .ok ctxPlayers)
    (hcp : newChart lib [⟨ctx, gamesConfig (gamesLabels w) (gamesData w)⟩]
        ⟨ctxPlayers, playersConfig (playersLabels w) (playersData w)⟩ = .notCalled e) :
    handler lib w d
      = { lookups := ["gamesChart", "playersChart"]
          calls := [⟨ctx, gamesConfig (gamesLabels w) (gamesData w)⟩]
          charts := [⟨ctx, gamesConfig (gamesLabels w) (gamesData w)⟩]
          error := some e } := by
  simp only [handler, h, hc, hp, hcp]

theorem handler_players_raises (lib : ChartLib) (w : Window) (d : Document)
    (ctx ctxPlayers : Option Context2D) (e : JSError)
    (h : elementContext d "gamesChart" = .ok ctx)
    (hc : newChart lib [] ⟨ctx, gamesConfig (gamesLabels w) (gamesData w)⟩ = .built)
    (hp : elementContext d "playersChart" = .ok ctxPlayers)
    (hcp : newChart lib [⟨ctx, gamesConfig (gamesLabels w) (gamesData w)⟩]
        ⟨ctxPlayers, playersConfig (playersLabels w) (playersData w)⟩ = .raised e) :
    handler lib w d
      = { lookups := ["gamesChart", "playersChart"]
          calls := [⟨ctx, gamesConfig (gamesLabels w) (gamesData w)⟩,
                    ⟨ctxPlayers, playersConfig (playersLabels w) (playersData w)⟩]
          charts := [⟨ctx, gamesConfig (gamesLabels w) (gamesData w)⟩]
          error := some e } := by
  simp only [handler, h, hc, hp, hcp]

theorem handler_success (lib : ChartLib) (w : Window) (d : Document)
    (ctx ctxPlayers : Option Context2D)
    (h : elementContext d "gamesChart" = .ok ctx)
    (hc : newChart lib [] ⟨ctx, gamesConfig (gamesLabels w) (gamesData w)⟩ = .built)
    (hp : elementContext d "playersChart" = .ok ctxPlayers)
    (hcp : newChart lib [⟨ctx, gamesConfig (gamesLabels w) (gamesData w)⟩]
        ⟨ctxPlayers, playersConfig (playersLabels w) (playersData w)⟩ = .built) :
    handler lib w d
      = { lookups := ["gamesChart", "playersChart"]
          calls := [⟨ctx, gamesConfig (gamesLabels w) (gamesData w)⟩,
                    ⟨ctxPlayers, playersConfig (playersLabels w) (playersData w)⟩]
          charts := [⟨ctx, gamesConfig (gamesLabels w) (gamesData w)⟩,
                     ⟨ctxPlayers, playersConfig (playersLabels w) (playersData w)⟩]
          error := none } := by
  simp only [handler, h, hc, hp, hcp]

/-- The five ways a run can go, by the first statement that raises.  When a
`new Chart` expression raises, the constructor call was reached or not,
according to who raised. -/
theorem handler_cases (lib : ChartLib) (w : Window) (d : Document) :
    (d.hasCanvas "gamesChart" = false ∧
      ∃ m, handler lib w d
        = { lookups := ["gamesChart"], calls := [], charts := [],
            error := some (.typeError m) }) ∨
    (d.hasCanvas "gamesChart" = true ∧
      ∃ e calls, lib.construct [] (gamesCall w d) = some e ∧
        (calls = [] ∨ calls = [gamesCall w d]) ∧
        handler lib w d
          = { lookups := ["gamesChart"], calls := calls, charts := [],
              error := some e }) ∨
    (d.hasCanvas "gamesChart" = true ∧ lib.construct [] (gamesCall w d) = none ∧
      d.hasCanvas "playersChart" = false ∧
      ∃ m, handler lib w d
        = { lookups := ["gamesChart", "playersChart"], calls := [gamesCall w d],
            charts := [gamesCall w d], error := some (.typeError m) }) ∨
    (d.hasCanvas "gamesChart" = true ∧ lib.construct [] (gamesCall w d) = none ∧
      d.hasCanvas "playersChart" = true ∧
      ∃ e calls, lib.construct [gamesCall w d] (playersCall w d) = some e ∧
        (calls = [gamesCall w d] ∨ calls = [gamesCall w d, playersCall w d]) ∧
        handler lib w d
          = { lookups := ["gamesChart", "playersChart"],
              calls := calls,
              charts := [gamesCall w d], error := some e }) ∨
    (d.hasCanvas "gamesChart" = true ∧ lib.construct [] (gamesCall w d) = none ∧
      d.hasCanvas "playersChart" = true ∧
      lib.construct [gamesCall w d] (playersCall w d) = none ∧
      handler lib w d
        = { lookups := ["gamesChart", "playersChart"],
            calls := [gamesCall w d, playersCall w d],
            charts := [gamesCall w d, playersCall w d], error := none }) := by
  cases hg : d.hasCanvas "gamesChart" with
  | false =>
    obtain ⟨m, hm⟩ := elementContext_of_not_hasCanvas d "gamesChart" hg
    exact Or.inl ⟨rfl, m, handler_games_missing lib w d _ hm⟩
  | true =>
    have hctx := elementContext_of_hasCanvas d "gamesChart" hg
    cases hc : newChart lib [] (gamesCall w d) with
    | notCalled e =>
      exact Or.inr (Or.inl ⟨rfl, e, [], construct_of_notCalled lib _ _ e hc, Or.inl rfl,
        handler_games_not_called lib w d _ e hctx hc⟩)
    | raised e =>
      exact Or.inr (Or.inl ⟨rfl, e, [gamesCall w d], construct_of_raised lib _ _ e hc,
        Or.inr rfl, handler_games_raises lib w d _ e hctx hc⟩)
    | built =>
      have hc' := (construct_eq_none lib _ _).mpr hc
      cases hp : d.hasCanvas "playersChart" with
      | false =>
        obtain ⟨m, hm⟩ := elementContext_of_not_hasCanvas d "playersChart" hp
        exact Or.inr (Or.inr (Or.inl
          ⟨rfl, hc', rfl, m, handler_players_missing lib w d _ _ hctx hc hm⟩))
      | true =>
        have hctxp := elementContext_of_hasCanvas d "playersChart" hp
        cases hcp : newChart lib [gamesCall w d] (playersCall w d) with
        | notCalled e =>
          exact Or.inr (Or.inr (Or.inr (Or.inl
            ⟨rfl, hc', rfl, e, [gamesCall w d], construct_of_notCalled lib _ _ e hcp,
              Or.inl rfl, handler_players_not_called lib w d _ _ e hctx hc hctxp hcp⟩)))
        | raised e =>
          exact Or.inr (Or.inr (Or.inr (Or.inl
            ⟨rfl, hc', rfl, e, [gamesCall w d, playersCall w d],
              construct_of_raised lib _ _ e hcp, Or.inr rfl,
              handler_players_raises lib w d _ _ e hctx hc hctxp hcp⟩)))
        | built =>
          exact Or.inr (Or.inr (Or.inr (Or.inr
            ⟨rfl, hc', rfl, (construct_eq_none lib _ _).mpr hcp,
              handler_success lib w d _ _ hctx hc hctxp hcp⟩)))

theorem string_length_eq_zero (s : String) : s.length = 0 ↔ s = "" := by
  constructor
  · intro h
    have hd : s.data = [] := List.length_eq_zero.mp h
    exact String.ext hd
  · intro h
    subst h
    rfl

theorem toBoolean_orEmpty (v : JSVal) : toBoolean (orEmpty v) = true := by
  unfold orEmpty jsOr
  by_cases h : toBoolean v = true
  · rw [if_pos h]
    exact h
  · rw [if_neg h]
    rfl

theorem orEmpty_of_truthy (v : JSVal) (h : toBoolean v = true) : orEmpty v = v := by
  simp [orEmpty, jsOr, h]

theorem orEmpty_of_falsy (v : JSVal) (h : toBoolean v = false) : orEmpty v = .array [] := by
  simp [orEmpty, jsOr, h, emptyArray]

theorem get_of_binding_none (w : Window) (name : String) (h : w.binding name = none) :
    w.get name = .undefined := by
  simp [Window.get, h]

theorem get_of_binding_some (w : Window) (name : String) (v : JSVal)
    (h : w.binding name = some v) : w.get name = v := by
  simp [Window.get, h]

theorem handler_of_canvases (lib : ChartLib) (w : Window) (d : Document)
    (hg : d.hasCanvas "gamesChart" = true) (hp : d.hasCanvas "playersChart" = true)
    (hc : lib.construct [] (gamesCall w d) = none)
    (hcp : lib.construct [gamesCall w d] (playersCall w d) = none) :
    handler lib w d
      = { lookups := ["gamesChart", "playersChart"]
          calls := [gamesCall w d, playersCall w d]
          charts := [gamesCall w d, playersCall w d]
          error := none } :=
  handler_success lib w d _ _ (elementContext_of_hasCanvas d _ hg)
    ((construct_eq_none lib _ _).mp hc)
    (elementContext_of_hasCanvas d _ hp) ((construct_eq_none lib _ _).mp hcp)

theorem handler_of_success (lib : ChartLib) (w : Window) (d : Document)
    (h : (handler lib w d).error = none) :
    d.hasCanvas "gamesChart" = true ∧ d.hasCanvas "playersChart" = true ∧
    lib.construct [] (gamesCall w d) = none ∧
    lib.construct [gamesCall w d] (playersCall w d) = none ∧
    handler lib w d
      = { lookups := ["gamesChart", "playersChart"]
          calls := [gamesCall w d, playersCall w d]
          charts := [gamesCall w d, playersCall w d]
          error := none } := by
  rcases handler_cases lib w d with ⟨_, m, h'⟩ | ⟨_, e, cs, _, _, h'⟩ | ⟨_, _, _, m, h'⟩ |
      ⟨_, _, _, e, cs, _, _, h'⟩ | ⟨hg, hc, hp, hcp, h'⟩
  · rw [h'] at h; simp at h
  · rw [h'] at h; simp at h
  · rw [h'] at h; simp at h
  · rw [h'] at h; simp at h
  · exact ⟨hg, hp, hc, hcp, h'⟩

/-! ## The specification's statements -/

/-- C1: an absent binding is replaced by the empty sequence.  Each of
`window.gamesChartLabels`, `window.gamesChartData`, `window.playersChartLabels`
and `window.playersChartData`, when absent, is handed on as `[]` (the
defaulting expression cannot fail); and with all four absent, both canvases
present and a constructor that does not raise, the handler ends without error
having constructed the games chart and then the players chart, each with
labels `[]` and data `[]`, zero points. -/
theorem absent_bindings_default_to_empty (lib : ChartLib) (w : Window) (d : Document) :
    (w.binding "gamesChartLabels" = none → gamesLabels w = .array []) ∧
    (w.binding "gamesChartData" = none → gamesData w = .array []) ∧
    (w.binding "playersChartLabels" = none → playersLabels w = .array []) ∧
    (w.binding "playersChartData" = none → playersData w = .array []) ∧
    (w.binding "gamesChartLabels" = none → w.binding "gamesChartData" = none →
      w.binding "playersChartLabels" = none → w.binding "playersChartData" = none →
      d.hasCanvas "gamesChart" = true → d.hasCanvas "playersChart" = true →
      lib.NeverRaises →
        (handler lib w d).error = none ∧
        (handler lib w d).charts
          = [{ ctx := d.context2d "gamesChart", config := gamesConfig (.array []) (.array []) },
             { ctx := d.context2d "playersChart",
               config := playersConfig (.array []) (.array []) }] ∧
        (handler lib w d).charts.map (fun c => c.config.labelCount) = [0, 0] ∧
        (handler lib w d).charts.map (fun c => c.config.pointCount) = [0, 0]) := by
  have key : ∀ name, w.binding name = none → orEmpty (w.get name) = .array [] := by
    intro name h
    rw [get_of_binding_none w name h]
    rfl
  refine ⟨key _, key _, key _, key _, ?_⟩
  intro h1 h2 h3 h4 hg hp hq
  have hrun := handler_of_canvases lib w d hg hp (hq _ _) (hq _ _)
  have e1 : gamesCall w d
      = { ctx := d.context2d "gamesChart", config := gamesConfig (.array []) (.array []) } := by
    simp only [gamesCall, gamesLabels, gamesData, key _ h1, key _ h2]
  have e2 : playersCall w d
      = { ctx := d.context2d "playersChart",
          config := playersConfig (.array []) (.array []) } := by
    simp only [playersCall, playersLabels, playersData, key _ h3, key _ h4]
  rw [hrun, e1, e2]
  exact ⟨rfl, rfl, rfl, rfl⟩

/-- C1 at a page that sets no binding and has both canvases. -/
theorem absent_bindings_default_to_empty_witness :
    gamesLabels bareWindow = .array [] ∧
    (handler quietLib bareWindow bothCanvases).error = none ∧
    (handler quietLib bareWindow bothCanvases).charts
      = [{ ctx := some { handle := 1 }, config := gamesConfig (.array []) (.array []) },
         { ctx := some { handle := 2 }, config := playersConfig (.array []) (.array []) }] ∧
    (handler quietLib bareWindow bothCanvases).charts.map (fun c => c.config.pointCount)
      = [0, 0] :=
  have h := absent_bindings_default_to_empty quietLib bareWindow bothCanvases
  have r := h.2.2.2.2 rfl rfl rfl rfl rfl rfl quietLib_neverRaises
  ⟨h.1 rfl, r.1, r.2.1, r.2.2.2⟩

/-- C2: supplied series are passed through unchanged.  For arrays `labels` and
`values` of equal length `n` bound to `window.gamesChartLabels` and
`window.gamesChartData`, the games chart (constructed as soon as its canvas is
there and its constructor call returns) has `data.labels` equal to `labels`
and `datasets[0].data` equal to `values`, so `n` ticks and `n` points; the same
for the players bindings and the players chart, the second chart of a
successful run. -/
theorem series_passed_through (lib : ChartLib) (w : Window) (d : Document)
    (labels values : List JSVal) (n : Nat)
    (hl : labels.length = n) (hv : values.length = n) :
    (w.binding "gamesChartLabels" = some (.array labels) →
      w.binding "gamesChartData" = some (.array values) →
        (gamesCall w d).config = gamesConfig (.array labels) (.array values) ∧
        (gamesCall w d).config.data.labels = .array labels ∧
        (gamesCall w d).config.data.datasets.map (fun ds => ds.data) = [.array values] ∧
        (gamesCall w d).config.labelCount = n ∧
        (gamesCall w d).config.pointCount = n ∧
        (d.hasCanvas "gamesChart" = true → lib.construct [] (gamesCall w d) = none →
          (handler lib w d).charts.head? = some (gamesCall w d))) ∧
    (w.binding "playersChartLabels" = some (.array labels) →
      w.binding "playersChartData" = some (.array values) →
        (playersCall w d).config = playersConfig (.array labels) (.array values) ∧
        (playersCall w d).config.data.labels = .array labels ∧
        (playersCall w d).config.data.datasets.map (fun ds => ds.data) = [.array values] ∧
        (playersCall w d).config.labelCount = n ∧
        (playersCall w d).config.pointCount = n ∧
        ((handler lib w d).error = none →
          (handler lib w d).charts = [gamesCall w d, playersCall w d])) := by
  have key : ∀ name items, w.binding name = some (.array items) →
      orEmpty (w.get name) = .array items := by
    intro name items h
    rw [get_of_binding_some w name _ h]
    rfl
  constructor
  · intro h1 h2
    have e : (gamesCall w d).config = gamesConfig (.array labels) (.array values) := by
      simp only [gamesCall, gamesLabels, gamesData, key _ _ h1, key _ _ h2]
    refine ⟨e, by rw [e]; rfl, by rw [e]; rfl, by rw [e]; exact hl, by rw [e]; exact hv, ?_⟩
    intro hg hc
    rcases handler_cases lib w d with ⟨hg', _⟩ | ⟨_, e', cs, hc', _⟩ | ⟨_, _, _, m, h⟩ |
        ⟨_, _, _, e', cs, _, _, h⟩ | ⟨_, _, _, _, h⟩
    · rw [hg] at hg'; cases hg'
    · rw [hc] at hc'; cases hc'
    · rw [h]; rfl
    · rw [h]; rfl
    · rw [h]; rfl
  · intro h1 h2
    have e : (playersCall w d).config = playersConfig (.array labels) (.array values) := by
      simp only [playersCall, playersLabels, playersData, key _ _ h1, key _ _ h2]
    refine ⟨e, by rw [e]; rfl, by rw [e]; rfl, by rw [e]; exact hl, by rw [e]; exact hv, ?_⟩
    intro hs
    rw [(handler_of_success lib w d hs).2.2.2.2]

/-- C2 at the example scenario: `["Mon","Tue","Wed"]` and `[3,5,2]` give three
points with those labels in order. -/
theorem series_passed_through_witness :
    (gamesCall weekWindow bothCanvases).config.data.labels
      = .array [.string "Mon", .string "Tue", .string "Wed"] ∧
    (gamesCall weekWindow bothCanvases).config.data.datasets.map (fun ds => ds.data)
      = [.array [.number (.dec 3 0), .number (.dec 5 0), .number (.dec 2 0)]] ∧
    (gamesCall weekWindow bothCanvases).config.pointCount = 3 ∧
    (handler quietLib weekWindow bothCanvases).charts.head?
      = some (gamesCall weekWindow bothCanvases) :=
  have h := (series_passed_through quietLib weekWindow bothCanvases
    [.string "Mon", .string "Tue", .string "Wed"]
    [.number (.dec 3 0), .number (.dec 5 0), .number (.dec 2 0)] 3 rfl rfl).1 rfl rfl
  ⟨h.2.1, h.2.2.1, h.2.2.2.2.1, h.2.2.2.2.2 rfl rfl⟩

/-- C8: a successful run constructs exactly two charts, games then players.
The first is bound to the 2d context of the canvas `gamesChart` and its
configuration is `gamesConfig` of the two games bindings (defaulted); the
second is bound to the 2d context of the canvas `playersChart` and its
configuration is `playersConfig` of the two players bindings.  Any two
successful runs whose games bindings read the same build the same games
configuration, whatever else differs, and likewise for the players. -/
theorem two_charts_each_from_its_bindings (lib : ChartLib) (w : Window) (d : Document)
    (h : (handler lib w d).error = none) :
    (handler lib w d).calls = (handler lib w d).charts ∧
    (handler lib w d).charts
      = [{ ctx := d.context2d "gamesChart"
           config := gamesConfig (orEmpty (w.get "gamesChartLabels"))
             (orEmpty (w.get "gamesChartData")) },
         { ctx := d.context2d "playersChart"
           config := playersConfig (orEmpty (w.get "playersChartLabels"))
             (orEmpty (w.get "playersChartData")) }] ∧
    d.hasCanvas "gamesChart" = true ∧ d.hasCanvas "playersChart" = true ∧
    (∀ (lib' : ChartLib) (w' : Window) (d' : Document),
      (handler lib' w' d').error = none →
      w'.get "gamesChartLabels" = w.get "gamesChartLabels" →
      w'.get "gamesChartData" = w.get "gamesChartData" →
        ((handler lib' w' d').charts.map (fun c => c.config))[0]?
          = ((handler lib w d).charts.map (fun c => c.config))[0]?) ∧
    (∀ (lib' : ChartLib) (w' : Window) (d' : Document),
      (handler lib' w' d').error = none →
      w'.get "playersChartLabels" = w.get "playersChartLabels" →
      w'.get "playersChartData" = w.get "playersChartData" →
        ((handler lib' w' d').charts.map (fun c => c.config))[1]?
          = ((handler lib w d).charts.map (fun c => c.config))[1]?) := by
  obtain ⟨hg, hp, _, _, hrun⟩ := handler_of_success lib w d h
  refine ⟨by rw [hrun], by rw [hrun]; rfl, hg, hp, ?_, ?_⟩
  · intro lib' w' d' h' e1 e2
    rw [hrun, (handler_of_success lib' w' d' h').2.2.2.2]
    simp [gamesCall, gamesLabels, gamesData, e1, e2]
  · intro lib' w' d' h' e1 e2
    rw [hrun, (handler_of_success lib' w' d' h').2.2.2.2]
    simp [playersCall, playersLabels, playersData, e1, e2]

/-- C8 at the example page: two charts, on the contexts of the two canvases. -/
theorem two_charts_each_from_its_bindings_witness :
    (handler quietLib weekWindow bothCanvases).charts
      = [{ ctx := some { handle := 1 }
           config := gamesConfig (.array [.string "Mon", .string "Tue", .string "Wed"])
             (.array [.number (.dec 3 0), .number (.dec 5 0), .number (.dec 2 0)]) },
         { ctx := some { handle := 2 }, config := playersConfig (.array []) (.array []) }] :=
  (two_charts_each_from_its_bindings quietLib weekWindow bothCanvases rfl).2.1


/-- C10: the default `|| []` is keyed on truthiness.  For every value `v` the
value handed on is `[]` when `v` is falsy and `v` itself when `v` is truthy;
`undefined`, `null`, `false`, `0`, `-0`, `NaN` and the empty string are falsy
(and these, with `0n`, are all the falsy values); an explicit `[]`, a non-empty
string, and an object are handed on as they are; the defaulting is idempotent. -/
theorem orEmpty_keyed_on_truthiness :
    (∀ v, orEmpty v = if toBoolean v then v else .array []) ∧
    (∀ v, toBoolean v = false ↔
      (v = .undefined ∨ v = .null ∨ v = .bool false ∨ v = .number .nan ∨
        v = .number .negZero ∨ (∃ places, v = .number (.dec 0 places)) ∨
        v = .bigint 0 ∨ v = .string "")) ∧
    orEmpty .undefined = .array [] ∧
    orEmpty .null = .array [] ∧
    orEmpty (.bool false) = .array [] ∧
    orEmpty (.number (.dec 0 0)) = .array [] ∧
    orEmpty (.number .nan) = .array [] ∧
    orEmpty (.string "") = .array [] ∧
    orEmpty (.array []) = .array [] ∧
    (∀ items, orEmpty (.array items) = .array items) ∧
    (∀ s, s ≠ "" → orEmpty (.string s) = .string s) ∧
    (∀ props, orEmpty (.object props) = .object props) ∧
    (∀ v, orEmpty (orEmpty v) = orEmpty v) := by
  refine ⟨?_, ?_, rfl, rfl, rfl, rfl, rfl, rfl, rfl, fun _ => rfl, ?_, fun _ => rfl, ?_⟩
  · intro v
    rfl
  · intro v
    cases v with
    | undefined => simp [toBoolean]
    | null => simp [toBoolean]
    | bool b => cases b <;> simp [toBoolean]
    | number n =>
      cases n with
      | nan => simp [toBoolean, JSNum.isFalsy]
      | negZero => simp [toBoolean, JSNum.isFalsy]
      | infinity neg => simp [toBoolean, JSNum.isFalsy]
      | dec m p => simp [toBoolean, JSNum.isFalsy]
    | bigint i => simp [toBoolean]
    | string s => simp [toBoolean, string_length_eq_zero]
    | symbol s => simp [toBoolean]
    | func f => simp [toBoolean]
    | array items => simp [toBoolean]
    | object props => simp [toBoolean]
  · intro s hs
    apply orEmpty_of_truthy
    have : s.length ≠ 0 := fun h => hs ((string_length_eq_zero s).mp h)
    simp [toBoolean, this]
  · intro v
    exact orEmpty_of_truthy _ (toBoolean_orEmpty v)

/-- C5: the styling is constant in the inputs.  For every state of the bindings
the games configuration has type `line`, one dataset labelled `Games` with
border colour `#0073aa`, background `rgba(0,115,170,0.1)`, fill on and tension
0.3, and options responsive on and legend display off; the players one differs
in the label `Players`, border `#ff9800` and background `rgba(255,152,0,0.1)`
only; the two stroke colours differ; the bindings reach `data.labels` and
`datasets[0].data` and nothing else, in the configurations and in every
constructor call the handler makes. -/
theorem styling_is_constant (lib : ChartLib) (w w' : Window) (d : Document) :
    (gamesConfig (gamesLabels w) (gamesData w)
      = { type := "line"
          data :=
            { labels := gamesLabels w
              datasets :=
                [{ label := "Games", data := gamesData w, borderColor := "#0073aa",
                   backgroundColor := "rgba(0,115,170,0.1)", fill := true,
                   tension := .dec 3 1 }] }
          options := { responsive := true, plugins := { legend := { display := false } } } }) ∧
    (playersConfig (playersLabels w) (playersData w)
      = { type := "line"
          data :=
            { labels := playersLabels w
              datasets :=
                [{ label := "Players", data := playersData w, borderColor := "#ff9800",
                   backgroundColor := "rgba(255,152,0,0.1)", fill := true,
                   tension := .dec 3 1 }] }
          options := { responsive := true, plugins := { legend := { display := false } } } }) ∧
    ((gamesConfig (gamesLabels w) (gamesData w)).data.datasets.map (fun ds => ds.borderColor)
      ≠ (playersConfig (playersLabels w) (playersData w)).data.datasets.map
          (fun ds => ds.borderColor)) ∧
    ((gamesConfig (gamesLabels w) (gamesData w)).styling
      = (gamesConfig (gamesLabels w') (gamesData w')).styling) ∧
    ((playersConfig (playersLabels w) (playersData w)).styling
      = (playersConfig (playersLabels w') (playersData w')).styling) ∧
    (∀ c ∈ (handler lib w d).calls,
      c.config.styling = (gamesConfig .undefined .undefined).styling ∨
      c.config.styling = (playersConfig .undefined .undefined).styling) := by
  refine ⟨rfl, rfl, by simp [gamesConfig, playersConfig], rfl, rfl, ?_⟩
  intro c hc
  have key : ∀ cs : List ChartCall, c ∈ cs →
      (cs = [] ∨ cs = [gamesCall w d] ∨ cs = [gamesCall w d, playersCall w d]) →
      c.config.styling = (gamesConfig .undefined .undefined).styling ∨
      c.config.styling = (playersConfig .undefined .undefined).styling := by
    intro cs hmem hcs
    rcases hcs with rfl | rfl | rfl
    · simp at hmem
    · simp at hmem
      subst hmem
      exact Or.inl rfl
    · simp at hmem
      rcases hmem with hmem | hmem <;> subst hmem
      · exact Or.inl rfl
      · exact Or.inr rfl
  rcases handler_cases lib w d with ⟨_, m, h⟩ | ⟨_, e, cs, _, hcs, h⟩ | ⟨_, _, _, m, h⟩ |
      ⟨_, _, _, e, cs, _, hcs, h⟩ | ⟨_, _, _, _, h⟩ <;> rw [h] at hc
  · exact key _ hc (Or.inl rfl)
  · exact key _ hc (hcs.elim Or.inl (fun h' => Or.inr (Or.inl h')))
  · exact key _ hc (Or.inr (Or.inl rfl))
  · exact key _ hc (hcs.elim (fun h' => Or.inr (Or.inl h')) (fun h' => Or.inr (Or.inr h')))
  · exact key _ hc (Or.inr (Or.inr rfl))

theorem sameLength_orEmpty (x y : JSVal) (ls vs : List JSVal) :
    (toBoolean x = false → toBoolean y = false →
      sameLength (orEmpty x) (orEmpty y) = true) ∧
    (x = .array ls → y = .array vs →
      (sameLength (orEmpty x) (orEmpty y) = true ↔ ls.length = vs.length)) ∧
    (x = .array ls → toBoolean y = false →
      (sameLength (orEmpty x) (orEmpty y) = true ↔ ls.length = 0)) ∧
    (toBoolean x = false → y = .array vs →
      (sameLength (orEmpty x) (orEmpty y) = true ↔ vs.length = 0)) := by
  refine ⟨?_, ?_, ?_, ?_⟩
  · intro hx hy
    rw [orEmpty_of_falsy x hx, orEmpty_of_falsy y hy]
    rfl
  · intro hx hy
    subst hx hy
    simp [orEmpty, jsOr, toBoolean, sameLength, arrayLength]
  · intro hx hy
    subst hx
    rw [orEmpty_of_falsy y hy]
    simp [orEmpty, jsOr, toBoolean, sameLength, arrayLength]
  · intro hx hy
    subst hy
    rw [orEmpty_of_falsy x hx]
    simp [orEmpty, jsOr, toBoolean, sameLength, arrayLength]
    exact eq_comm.trans List.length_eq_zero

/-- C3, as the code has it: the charts are built one after the other with
nothing caught in between.  A failure of the games step (no canvas under
`gamesChart`, or its constructor call raising) ends the run: the players canvas
is not even looked up and no chart is constructed.  A failure of the players
step (no canvas under `playersChart`, or its constructor call raising) comes
after the games chart has been constructed, and leaves exactly that chart. -/
theorem first_failure_ends_the_run (lib : ChartLib) (w : Window) (d : Document) :
    (d.hasCanvas "gamesChart" = false ∨ lib.construct [] (gamesCall w d) ≠ none →
      (handler lib w d).error ≠ none ∧ (handler lib w d).charts = [] ∧
      (handler lib w d).lookups = ["gamesChart"] ∧ (handler lib w d).calls.length ≤ 1) ∧
    (d.hasCanvas "gamesChart" = true → lib.construct [] (gamesCall w d) = none →
      (d.hasCanvas "playersChart" = false ∨
        lib.construct [gamesCall w d] (playersCall w d) ≠ none) →
      (handler lib w d).error ≠ none ∧ (handler lib w d).charts = [gamesCall w d]) := by
  constructor
  · intro hfail
    rcases handler_cases lib w d with ⟨_, m, h⟩ | ⟨_, e, cs, _, hcs, h⟩ | ⟨hg, hc, _⟩ |
        ⟨hg, hc, _⟩ | ⟨hg, hc, _⟩
    · rw [h]; simp
    · rcases hcs with rfl | rfl <;> (rw [h]; simp)
    · rcases hfail with hf | hf
      · rw [hg] at hf; cases hf
      · exact absurd hc hf
    · rcases hfail with hf | hf
      · rw [hg] at hf; cases hf
      · exact absurd hc hf
    · rcases hfail with hf | hf
      · rw [hg] at hf; cases hf
      · exact absurd hc hf
  · intro hg hc hfail
    rcases handler_cases lib w d with ⟨hg', _⟩ | ⟨_, e, cs, hc', _⟩ | ⟨_, _, _, m, h⟩ |
        ⟨_, _, _, e, cs, _, _, h⟩ | ⟨_, _, hp, hcp, _⟩
    · rw [hg] at hg'; cases hg'
    · rw [hc] at hc'; cases hc'
    · rw [h]; simp
    · rw [h]; simp
    · rcases hfail with hf | hf
      · rw [hp] at hf; cases hf
      · exact absurd hcp hf

/-- C3 at a page whose games constructor call raises, and at one whose players
canvas is missing. -/
theorem first_failure_ends_the_run_witness :
    (handler firstRaisesLib weekWindow bothCanvases).charts = [] ∧
    (handler quietLib weekWindow gamesCanvasOnly).charts
      = [gamesCall weekWindow gamesCanvasOnly] :=
  ⟨((first_failure_ends_the_run firstRaisesLib weekWindow bothCanvases).1
      (Or.inr (by decide))).2.1,
   ((first_failure_ends_the_run quietLib weekWindow gamesCanvasOnly).2 rfl rfl
      (Or.inl rfl)).2⟩

/-- C3 as stated fails: with both canvases present and a constructor that
raises on the games chart only (the players call would return), the run ends
at the games chart and the players chart is never constructed, nor its canvas
looked up; the same when the games canvas is missing. -/
theorem games_failure_prevents_players_chart :
    firstRaisesLib.construct [] (gamesCall weekWindow bothCanvases)
      = some (.raisedByChart "invalid data") ∧
    firstRaisesLib.construct [gamesCall weekWindow bothCanvases]
      (playersCall weekWindow bothCanvases) = none ∧
    bothCanvases.hasCanvas "playersChart" = true ∧
    (handler firstRaisesLib weekWindow bothCanvases).error
      = some (.raisedByChart "invalid data") ∧
    (handler firstRaisesLib weekWindow bothCanvases).charts.length = 0 ∧
    (handler firstRaisesLib weekWindow bothCanvases).calls.length = 1 ∧
    (handler firstRaisesLib weekWindow bothCanvases).lookups = ["gamesChart"] ∧
    playersCanvasOnly.hasCanvas "playersChart" = true ∧
    (handler quietLib weekWindow playersCanvasOnly).charts.length = 0 ∧
    (handler quietLib weekWindow playersCanvasOnly).calls.length = 0 := by
  refine ⟨rfl, rfl, rfl, rfl, rfl, rfl, rfl, rfl, rfl, rfl⟩

/-- C4, as the code has it: the handler hands each binding on by itself and
checks no length.  For each chart, with both bindings of its pair absent (or
otherwise falsy) the configuration has labels and data of equal length, zero;
with both bindings arrays, it has them of equal length exactly when the arrays
are; with one binding an array and the other absent, exactly when that array is
empty. -/
theorem series_invariant_as_supplied (w : Window) (ls vs : List JSVal) :
    ((toBoolean (w.get "gamesChartLabels") = false →
        toBoolean (w.get "gamesChartData") = false →
        (gamesConfig (gamesLabels w) (gamesData w)).seriesOk = true) ∧
      (w.get "gamesChartLabels" = .array ls → w.get "gamesChartData" = .array vs →
        ((gamesConfig (gamesLabels w) (gamesData w)).seriesOk = true
          ↔ ls.length = vs.length)) ∧
      (w.get "gamesChartLabels" = .array ls → toBoolean (w.get "gamesChartData") = false →
        ((gamesConfig (gamesLabels w) (gamesData w)).seriesOk = true ↔ ls.length = 0)) ∧
      (toBoolean (w.get "gamesChartLabels") = false → w.get "gamesChartData" = .array vs →
        ((gamesConfig (gamesLabels w) (gamesData w)).seriesOk = true ↔ vs.length = 0))) ∧
    ((toBoolean (w.get "playersChartLabels") = false →
        toBoolean (w.get "playersChartData") = false →
        (playersConfig (playersLabels w) (playersData w)).seriesOk = true) ∧
      (w.get "playersChartLabels" = .array ls → w.get "playersChartData" = .array vs →
        ((playersConfig (playersLabels w) (playersData w)).seriesOk = true
          ↔ ls.length = vs.length)) ∧
      (w.get "playersChartLabels" = .array ls →
        toBoolean (w.get "playersChartData") = false →
        ((playersConfig (playersLabels w) (playersData w)).seriesOk = true
          ↔ ls.length = 0)) ∧
      (toBoolean (w.get "playersChartLabels") = false →
        w.get "playersChartData" = .array vs →
        ((playersConfig (playersLabels w) (playersData w)).seriesOk = true
          ↔ vs.length = 0))) :=
  ⟨sameLength_orEmpty (w.get "gamesChartLabels") (w.get "gamesChartData") ls vs,
   sameLength_orEmpty (w.get "playersChartLabels") (w.get "playersChartData") ls vs⟩

/-- C4 at the example scenario (three labels, three values) and at a page that
sets no binding. -/
theorem series_invariant_as_supplied_witness :
    (gamesConfig (gamesLabels weekWindow) (gamesData weekWindow)).seriesOk = true ∧
    (playersConfig (playersLabels weekWindow) (playersData weekWindow)).seriesOk = true :=
  have h := series_invariant_as_supplied weekWindow
    [.string "Mon", .string "Tue", .string "Wed"]
    [.number (.dec 3 0), .number (.dec 5 0), .number (.dec 2 0)]
  ⟨(h.1.2.1 rfl rfl).mpr rfl, h.2.1 rfl rfl⟩

/-- C4 as stated fails: with `window.gamesChartLabels = ["Mon"]` and
`window.gamesChartData` absent, the games chart is constructed with one label
and zero data points. -/
theorem labels_without_data_differ_in_length :
    labelsOnlyWindow.binding "gamesChartLabels" = some (.array [.string "Mon"]) ∧
    labelsOnlyWindow.binding "gamesChartData" = none ∧
    (handler quietLib labelsOnlyWindow bothCanvases).charts.head?
      = some (gamesCall labelsOnlyWindow bothCanvases) ∧
    (gamesCall labelsOnlyWindow bothCanvases).config.data.labels = .array [.string "Mon"] ∧
    (gamesCall labelsOnlyWindow bothCanvases).config.data.datasets.map (fun ds => ds.data)
      = [.array []] ∧
    arrayLength (gamesLabels labelsOnlyWindow) = some 1 ∧
    arrayLength (gamesData labelsOnlyWindow) = some 0 ∧
    (gamesCall labelsOnlyWindow bothCanvases).config.seriesOk = false := by
  refine ⟨rfl, rfl, rfl, rfl, rfl, rfl, rfl, rfl⟩

/-- C6, as the code has it: missing canvas elements are the handler's only own
failure condition once the global `Chart` is bound to a constructor.  Assuming
`Chart` resolves to a constructor that does not raise, the handler ends in an
error exactly when the canvas element `gamesChart` or the canvas element
`playersChart` is missing from the document, for every value of the four
bindings; nothing catches the error, so an absent element always ends the run
in error. -/
theorem error_iff_a_canvas_is_missing (lib : ChartLib) (w : Window) (d : Document)
    (body : List ChartCall → ChartCall → Option JSError)
    (hChart : lib.Chart = .constructor body)
    (hq : ∀ earlier call, body earlier call = none) :
    ((handler lib w d).error ≠ none ↔
      (d.hasCanvas "gamesChart" = false ∨ d.hasCanvas "playersChart" = false)) ∧
    (d.getElementById "gamesChart" = none ∨ d.getElementById "playersChart" = none →
      (handler lib w d).error ≠ none) := by
  have hnr : lib.NeverRaises := by
    intro earlier call
    simp [ChartLib.construct, newChart, hChart, hq]
  have hmiss : ∀ id, d.getElementById id = none → d.hasCanvas id = false := by
    intro id h
    simp [Document.hasCanvas, h]
  have hiff : (handler lib w d).error ≠ none ↔
      (d.hasCanvas "gamesChart" = false ∨ d.hasCanvas "playersChart" = false) := by
    rcases handler_cases lib w d with ⟨hg, m, h⟩ | ⟨_, e, cs, hc, _⟩ | ⟨_, _, hp, m, h⟩ |
        ⟨_, _, _, e, cs, hcp, _⟩ | ⟨hg, _, hp, _, h⟩
    · rw [h]; simp [hg]
    · rw [hnr] at hc; cases hc
    · rw [h]; simp [hp]
    · rw [hnr] at hcp; cases hcp
    · rw [h]; simp [hg, hp]
  refine ⟨hiff, ?_⟩
  intro habs
  apply hiff.mpr
  rcases habs with ha | ha
  · exact Or.inl (hmiss _ ha)
  · exact Or.inr (hmiss _ ha)

/-- C6 at a document without the games canvas, and at one with both canvases. -/
theorem error_iff_a_canvas_is_missing_witness :
    (handler quietLib weekWindow playersCanvasOnly).error ≠ none ∧
    ¬ ((handler quietLib weekWindow bothCanvases).error ≠ none) :=
  ⟨(error_iff_a_canvas_is_missing quietLib weekWindow playersCanvasOnly (fun _ _ => none) rfl
      (fun _ _ => rfl)).1.mpr (Or.inl rfl),
   fun h =>
    ((error_iff_a_canvas_is_missing quietLib weekWindow bothCanvases (fun _ _ => none) rfl
      (fun _ _ => rfl)).1.mp h).elim (fun h' => by cases h') (fun h' => by cases h')⟩

/-- C6 as stated fails: with both canvas elements present and no constructor
call raising (none is made), the handler still ends in an error of its own
code when the identifier `Chart` of line 6 does not resolve, a
`ReferenceError`; and likewise, a `TypeError`, when `Chart` is bound to a
value that is not a constructor. -/
theorem unresolved_chart_fails_with_both_canvases :
    bothCanvases.hasCanvas "gamesChart" = true ∧
    bothCanvases.hasCanvas "playersChart" = true ∧
    (handler noChartLib weekWindow bothCanvases).calls.length = 0 ∧
    (handler noChartLib weekWindow bothCanvases).error
      = some (.referenceError "Chart is not defined") ∧
    (handler undefinedChartLib weekWindow bothCanvases).calls.length = 0 ∧
    (handler undefinedChartLib weekWindow bothCanvases).error
      = some (.typeError "Chart is not a constructor") :=
  ⟨rfl, rfl, rfl, rfl, rfl, rfl⟩

/-- C7, as the code has it: when the document has no canvas under an id, the
handler's own expression `document.getElementById(id).getContext(...)` raises a
`TypeError` before the constructor call for that chart is reached; the library
is not called for that chart, whatever it would have done.  With the games
canvas missing the constructor is never called; with only the players canvas
missing it has been called once, for the games chart. -/
theorem missing_canvas_raises_before_the_constructor (lib : ChartLib) (w : Window)
    (d : Document) :
    (d.hasCanvas "gamesChart" = false →
      (handler lib w d).calls = [] ∧ (handler lib w d).charts = [] ∧
      ∃ m, (handler lib w d).error = some (.typeError m)) ∧
    (d.getElementById "gamesChart" = none →
      (handler lib w d).calls = [] ∧
      (handler lib w d).error
        = some (.typeError "Cannot read properties of null (reading getContext)")) ∧
    (d.hasCanvas "gamesChart" = true → lib.construct [] (gamesCall w d) = none →
      d.hasCanvas "playersChart" = false →
      (handler lib w d).calls = [gamesCall w d] ∧
      ∃ m, (handler lib w d).error = some (.typeError m)) := by
  refine ⟨?_, ?_, ?_⟩
  · intro hg
    rcases handler_cases lib w d with ⟨_, m, h⟩ | ⟨hg', _⟩ | ⟨hg', _⟩ | ⟨hg', _⟩ | ⟨hg', _⟩
    · rw [h]
      exact ⟨rfl, rfl, m, rfl⟩
    all_goals (rw [hg] at hg'; cases hg')
  · intro hnone
    have h : elementContext d "gamesChart"
        = .error (.typeError "Cannot read properties of null (reading getContext)") := by
      simp [elementContext, hnone]
    rw [handler_games_missing lib w d _ h]
    exact ⟨rfl, rfl⟩
  · intro hg hc hp
    rcases handler_cases lib w d with ⟨hg', _⟩ | ⟨_, e, cs, hc', _⟩ | ⟨_, _, _, m, h⟩ |
        ⟨_, _, hp', _⟩ | ⟨_, _, hp', _⟩
    · rw [hg] at hg'; cases hg'
    · rw [hc] at hc'; cases hc'
    · rw [h]
      exact ⟨rfl, m, rfl⟩
    · rw [hp] at hp'; cases hp'
    · rw [hp] at hp'; cases hp'

/-- C7 at a document without the games canvas, with a constructor that would raise. -/
theorem missing_canvas_raises_before_the_constructor_witness :
    (handler raisingLib weekWindow playersCanvasOnly).calls = [] ∧
    (handler raisingLib weekWindow playersCanvasOnly).error
      = some (.typeError "Cannot read properties of null (reading getContext)") :=
  (missing_canvas_raises_before_the_constructor raisingLib weekWindow playersCanvasOnly).2.1 rfl

/-- C7 as stated fails: with the element `gamesChart` absent the handler makes
no constructor call at all, and the error is the `TypeError` of its own
property access on `null`, not the one the library would have raised; with
only `playersChart` absent the one call made is the games one. -/
theorem constructor_not_reached_without_canvas :
    playersCanvasOnly.getElementById "gamesChart" = none ∧
    raisingLib.construct [] (gamesCall bareWindow playersCanvasOnly)
      = some (.raisedByChart "invalid data") ∧
    (handler raisingLib bareWindow playersCanvasOnly).calls.length = 0 ∧
    (handler raisingLib bareWindow playersCanvasOnly).error
      = some (.typeError "Cannot read properties of null (reading getContext)") ∧
    gamesCanvasOnly.getElementById "playersChart" = none ∧
    (handler quietLib bareWindow gamesCanvasOnly).calls.map (fun c => c.config.type)
      = ["line"] ∧
    (handler quietLib bareWindow gamesCanvasOnly).calls.map
      (fun c => c.config.data.datasets.map (fun ds => ds.label)) = [["Games"]] ∧
    (handler quietLib bareWindow gamesCanvasOnly).error
      = some (.typeError "Cannot read properties of null (reading getContext)") := by
  refine ⟨rfl, rfl, rfl, rfl, rfl, rfl, rfl, rfl⟩

/-- C9: evaluating the script registers one `DOMContentLoaded` listener on the
document, the handler, and does nothing else: no canvas lookup, no constructor
call, no chart.  With no delivery of the event the page stays so; one delivery
runs the handler once, synchronously, and what the page then holds is what
that one run did, two charts when the run succeeds; other events run nothing. -/
theorem script_only_registers_the_listener (lib : ChartLib) (w : Window) (d : Document)
    (p : Page) :
    (evalScript p).listeners = p.listeners ++ [("DOMContentLoaded", handler)] ∧
    (evalScript p).listeners.length = p.listeners.length + 1 ∧
    (evalScript p).lookups = p.lookups ∧
    (evalScript p).calls = p.calls ∧
    (evalScript p).charts = p.charts ∧
    (evalScript p).errors = p.errors ∧
    (deliver lib w d 0 (evalScript Page.fresh)).calls = [] ∧
    (deliver lib w d 0 (evalScript Page.fresh)).charts = [] ∧
    (deliver lib w d 0 (evalScript Page.fresh)).lookups = [] ∧
    (deliver lib w d 1 (evalScript Page.fresh)).lookups = (handler lib w d).lookups ∧
    (deliver lib w d 1 (evalScript Page.fresh)).calls = (handler lib w d).calls ∧
    (deliver lib w d 1 (evalScript Page.fresh)).charts = (handler lib w d).charts ∧
    (deliver lib w d 1 (evalScript Page.fresh)).errors = (handler lib w d).error.toList ∧
    ((handler lib w d).error = none →
      (deliver lib w d 1 (evalScript Page.fresh)).charts.length = 2 ∧
      (deliver lib w d 1 (evalScript Page.fresh)).calls.length = 2) ∧
    (∀ event, event ≠ "DOMContentLoaded" →
      (dispatch lib w d event (evalScript Page.fresh)).calls = [] ∧
      (dispatch lib w d event (evalScript Page.fresh)).lookups = []) := by
  have one : deliver lib w d 1 (evalScript Page.fresh)
      = (evalScript Page.fresh).record (handler lib w d) := by
    simp [deliver, dispatch, evalScript, Page.fresh]
  refine ⟨rfl, by simp [evalScript], rfl, rfl, rfl, rfl, rfl, rfl, rfl, ?_, ?_, ?_, ?_, ?_, ?_⟩
  · rw [one]; simp [Page.record, evalScript, Page.fresh]
  · rw [one]; simp [Page.record, evalScript, Page.fresh]
  · rw [one]; simp [Page.record, evalScript, Page.fresh]
  · rw [one]; simp [Page.record, evalScript, Page.fresh]
  · intro h
    rw [one]
    simp [Page.record, evalScript, Page.fresh, (handler_of_success lib w d h).2.2.2.2]
  · intro event hev
    have hne : ("DOMContentLoaded" == event) = false := by
      simpa using fun h => hev h.symm
    simp [dispatch, evalScript, Page.fresh, hne]

/-- C9 at the example page: one delivery, two charts. -/
theorem script_only_registers_the_listener_witness :
    (deliver quietLib weekWindow bothCanvases 0 (evalScript Page.fresh)).charts.length = 0 ∧
    (deliver quietLib weekWindow bothCanvases 1 (evalScript Page.fresh)).charts.length = 2 :=
  have h := script_only_registers_the_listener quietLib weekWindow bothCanvases Page.fresh
  ⟨by rw [h.2.2.2.2.2.2.2.1]; rfl, (h.2.2.2.2.2.2.2.2.2.2.2.2.2.1 rfl).1⟩

end DashboardCharts
